import Mathlib

/-!
Shallow embedding of the profit-ai trading bot (src/backend-server.js).

Numbers are modelled as exact rationals (ℚ); JavaScript performs the same
arithmetic in IEEE doubles, so all concrete inputs below are chosen to be
exactly representable.  Wall-clock timestamps, logging and string formatting
(`toFixed`) are dropped: no claim depends on them.  The external venue
gateway (class AsterDexAPI) is modelled as an oracle of responses, and the
orders a cycle submits are recorded in an explicit action list.
-/

set_option maxRecDepth 100000

/-- One OHLCV candle, as produced by `getKlines` (backend-server.js:105-112).
The JS field `open` is a Lean keyword, hence `openPrice`. -/
structure Candle where
  timestamp : ℕ
  openPrice : ℚ
  high : ℚ
  low : ℚ
  close : ℚ
  volume : ℚ
deriving DecidableEq, Inhabited

/-- The JS idiom `xs.slice(-n)`: the last `n` elements (the whole list when
`n ≥ xs.length`). -/
def lastN {α : Type} (n : ℕ) (l : List α) : List α :=
  l.drop (l.length - n)

/-- The JS idiom `data[data.length - 1].close`; only used under guards that
make `data` nonempty. -/
def lastClose (data : List Candle) : ℚ :=
  (data.getLastD default).close

/-- The trading configuration (backend-server.js:22-36).  `POSITION_SIZE`
and `LEVERAGE` come from the environment (defaults 100 and 10); the
indicator constants are fixed.  `riskReward` embeds RISK_REWARD_RATIO. -/
structure Config where
  POSITION_SIZE : ℚ
  LEVERAGE : ℚ
  MA_PERIOD : ℕ
  ATR_PERIOD : ℕ
  ATR_MULTIPLIER : ℚ
  riskReward : ℚ
deriving DecidableEq

/-- The default CONFIG values of the source (backend-server.js:28-33). -/
def CONFIG : Config :=
  ⟨100, 10, 100, 10, 3, 1⟩

/-- Indicators.calculateSMA (backend-server.js:217-221): arithmetic mean of
the last `period` closes, `null` when the series is shorter than `period`. -/
def calculateSMA (data : List Candle) (period : ℕ) : Option ℚ :=
  if data.length < period then none
  else some (((lastN period data).map Candle.close).sum / (period : ℚ))

/-- True range of bar `cur` against the previous bar `prev`
(backend-server.js:227-231). -/
def trueRange (prev cur : Candle) : ℚ :=
  max (cur.high - cur.low) (max |cur.high - prev.close| |cur.low - prev.close|)

/-- The `trueRanges` array built by the loop `for i = 1 .. data.length - 1`
in calculateATR (backend-server.js:225-233). -/
def trueRanges : List Candle → List ℚ
  | [] => []
  | [_] => []
  | a :: b :: rest => trueRange a b :: trueRanges (b :: rest)

/-- Indicators.calculateATR (backend-server.js:223-236): mean of the last
`period` true ranges, `null` when `data.length < period + 1`. -/
def calculateATR (data : List Candle) (period : ℕ := 14) : Option ℚ :=
  if data.length < period + 1 then none
  else some ((lastN period (trueRanges data)).sum / (period : ℚ))

/-- The `{value, atr}` record returned by calculateATRTrailingStop. -/
structure ATRStop where
  value : ℚ
  atr : ℚ
deriving DecidableEq

/-- Indicators.calculateATRTrailingStop (backend-server.js:238-243):
`lastClose - atr * atrMultiplier`, `null` when `data.length < atrPeriod+1`. -/
def calculateATRTrailingStop (data : List Candle) (atrPeriod : ℕ := 10)
    (atrMultiplier : ℚ := 3) : Option ATRStop :=
  if data.length < atrPeriod + 1 then none
  else
    match calculateATR data atrPeriod with
    | none => none
    | some atr => some ⟨lastClose data - atr * atrMultiplier, atr⟩

/-- Order side / smart-money direction; the source uses the strings
BUY and SELL for both. -/
inductive Side
  | BUY
  | SELL
deriving DecidableEq

/-- Indicators.detectSmartMoneySignal (backend-server.js:245-257).  The
literals 1.5 and 0.002 are written 3/2 and 1/500 (equal rationals). -/
def detectSmartMoneySignal (data : List Candle) : Option Side :=
  if data.length < 20 then none
  else
    let current := data.getD (data.length - 1) default
    let previous := data.getD (data.length - 2) default
    let avgVolume := ((lastN 20 data).map Candle.volume).sum / 20
    let volumeSpike := current.volume > avgVolume * (3 / 2)
    let momentum := |current.close - previous.close| / previous.close
    let strongMomentum := momentum > (1 / 500 : ℚ)
    if volumeSpike ∧ current.close > previous.close ∧ strongMomentum then some Side.BUY
    else if volumeSpike ∧ current.close < previous.close ∧ strongMomentum then some Side.SELL
    else none

/-- Position direction, the `type` field of signals and positions. -/
inductive PosType
  | LONG
  | SHORT
deriving DecidableEq

/-- The entry signal record returned by checkEntrySignal
(backend-server.js:270-276 and 281-287). -/
structure Signal where
  type : PosType
  entryPrice : ℚ
  stopLoss : ℚ
  takeProfit : ℚ
  ma100 : ℚ
  atrStop : ℚ
deriving DecidableEq

/-- Indicators.checkEntrySignal (backend-server.js:259-290).  The source's
null guard `if (!ma100 || !atrStop)` is JS falsiness: it also rejects
`ma100 === 0`, which the embedding keeps as an explicit test. -/
def checkEntrySignal (data : List Candle) : Option Signal :=
  if data.length < 100 then none
  else
    match calculateSMA data CONFIG.MA_PERIOD,
          calculateATRTrailingStop data CONFIG.ATR_PERIOD CONFIG.ATR_MULTIPLIER with
    | some ma100, some atrStop =>
        if ma100 = 0 then none
        else
          let smartMoneySignal := detectSmartMoneySignal data
          let currentPrice := lastClose data
          if atrStop.value > ma100 ∧ smartMoneySignal = some Side.BUY then
            some ⟨PosType.LONG, currentPrice, ma100,
                  currentPrice + (currentPrice - ma100) * CONFIG.riskReward,
                  ma100, atrStop.value⟩
          else if atrStop.value < ma100 ∧ smartMoneySignal = some Side.SELL then
            some ⟨PosType.SHORT, currentPrice, ma100,
                  currentPrice - (ma100 - currentPrice) * CONFIG.riskReward,
                  ma100, atrStop.value⟩
          else none
    | _, _ => none

/-- Exit reasons reported by checkExit. -/
inductive ExitReason
  | STOP_LOSS
  | TAKE_PROFIT
deriving DecidableEq

/-- The single open position held in tradingState.currentPosition
(backend-server.js:377-381): the spread signal fields plus quantity and
the venue order id. -/
structure Position where
  type : PosType
  entryPrice : ℚ
  stopLoss : ℚ
  takeProfit : ℚ
  ma100 : ℚ
  atrStop : ℚ
  quantity : ℚ
  orderId : ℕ
deriving DecidableEq

/-- Indicators.checkExit (backend-server.js:292-301).  The JS
`{exit:false}` is `none`; an exit is `some (reason, price)`. -/
def checkExit (position : Position) (currentPrice : ℚ) : Option (ExitReason × ℚ) :=
  if position.type = PosType.LONG then
    if currentPrice ≤ position.stopLoss then some (ExitReason.STOP_LOSS, currentPrice)
    else if currentPrice ≥ position.takeProfit then some (ExitReason.TAKE_PROFIT, currentPrice)
    else none
  else
    if currentPrice ≥ position.stopLoss then some (ExitReason.STOP_LOSS, currentPrice)
    else if currentPrice ≤ position.takeProfit then some (ExitReason.TAKE_PROFIT, currentPrice)
    else none

/-- A closed-trade record pushed onto tradingState.trades
(backend-server.js:404-412). -/
structure Trade where
  type : PosType
  entryPrice : ℚ
  exitPrice : ℚ
  quantity : ℚ
  profit : ℚ
  reason : ExitReason
deriving DecidableEq

/-- The process-wide tradingState (backend-server.js:38-45), minus the
lastUpdate wall-clock field. -/
structure TradingState where
  balance : ℚ
  inPosition : Bool
  currentPosition : Option Position
  trades : List Trade
  priceData : List Candle
deriving DecidableEq

/-- The initial tradingState literal (backend-server.js:38-45). -/
def initialTradingState : TradingState :=
  ⟨0, false, none, [], []⟩

/-- One cycle's responses from the external venue gateway: the balance
returned by getBalance (0 on failure) and the order ids returned by
placeMarketOrder / placeStopOrder / the close request (`none` = the call
failed and the source received null). -/
structure GatewayOracle where
  balance : ℚ
  marketOrder : Option ℕ
  stopOrder : Option ℕ
  closeOrder : Option ℕ
deriving DecidableEq

/-- An order-placing request issued to the venue during a cycle. -/
inductive OrderAction
  | marketOrder (side : Side) (quantity : ℚ)
  | stopOrder (side : Side) (quantity : ℚ) (stopPrice : ℚ)
  | closeOrder
deriving DecidableEq

/-- The order quantity computed in openPosition (backend-server.js:364-365):
`Math.floor((balance * POSITION_SIZE/100 * LEVERAGE / entryPrice) * 10) / 10`. -/
def orderQuantity (cfg : Config) (balance entryPrice : ℚ) : ℚ :=
  ((Rat.floor (balance * cfg.POSITION_SIZE / 100 * cfg.LEVERAGE / entryPrice * 10) : ℚ) / 10)

/-- TradingEngine.openPosition (backend-server.js:361-390).  Returns the new
state and the orders submitted.  A non-positive quantity aborts before any
order; a failed market order leaves the state unchanged; the stop order's
result is ignored by the source, so a failed stop order does not undo the
opened position. -/
def openPosition (cfg : Config) (g : GatewayOracle) (s : TradingState)
    (signal : Signal) : TradingState × List OrderAction :=
  let quantity := orderQuantity cfg g.balance signal.entryPrice
  if quantity ≤ 0 then (s, [])
  else
    let side := if signal.type = PosType.LONG then Side.BUY else Side.SELL
    match g.marketOrder with
    | none => (s, [OrderAction.marketOrder side quantity])
    | some orderId =>
        let stopSide := if signal.type = PosType.LONG then Side.SELL else Side.BUY
        ({ s with
            inPosition := true,
            currentPosition := some
              ⟨signal.type, signal.entryPrice, signal.stopLoss, signal.takeProfit,
               signal.ma100, signal.atrStop, quantity, orderId⟩ },
         [OrderAction.marketOrder side quantity,
          OrderAction.stopOrder stopSide quantity signal.stopLoss])

/-- TradingEngine.closePosition (backend-server.js:392-428).  The close
request is always issued; only when it succeeds (and a position record
exists locally) are the trade appended, the balance credited and the
position cleared.  The profit is the direction-dependent price difference
times quantity, scaled by LEVERAGE (backend-server.js:398-402). -/
def closePosition (cfg : Config) (g : GatewayOracle) (s : TradingState)
    (reason : ExitReason) (exitPrice : ℚ) : TradingState × List OrderAction :=
  match s.currentPosition, g.closeOrder with
  | some position, some _ =>
      let profit :=
        (if position.type = PosType.LONG then (exitPrice - position.entryPrice) * position.quantity
         else (position.entryPrice - exitPrice) * position.quantity) * cfg.LEVERAGE
      ({ s with
          trades := s.trades ++
            [⟨position.type, position.entryPrice, exitPrice, position.quantity, profit, reason⟩],
          balance := s.balance + profit,
          inPosition := false,
          currentPosition := none },
       [OrderAction.closeOrder])
  | _, _ => (s, [OrderAction.closeOrder])

/-- TradingEngine.updatePriceData (backend-server.js:326-332): replace the
stored candles when the fetch returned a nonempty list. -/
def updatePriceData (klines : List Candle) (s : TradingState) : TradingState :=
  if klines.length > 0 then { s with priceData := klines } else s

/-- TradingEngine.checkForSignals (backend-server.js:334-359): one
evaluation cycle.  The source's `if (!currentPrice) return` is JS
falsiness on a number, kept as the test `currentPrice = 0` (the
empty-series case is the `none` row of the match). -/
def checkForSignals (cfg : Config) (g : GatewayOracle) (klines : List Candle)
    (s : TradingState) : TradingState × List OrderAction :=
  let s1 := updatePriceData klines s
  match s1.priceData.getLast? with
  | none => (s1, [])
  | some c =>
      let currentPrice := c.close
      if currentPrice = 0 then (s1, [])
      else
        match s1.inPosition, s1.currentPosition with
        | true, some position =>
            match checkExit position currentPrice with
            | some (reason, price) => closePosition cfg g s1 reason price
            | none => (s1, [])
        | _, _ =>
            match checkEntrySignal s1.priceData with
            | some signal => openPosition cfg g s1 signal
            | none => (s1, [])

/-- States reachable from the initial tradingState by the controller's
transitions: the initialize refresh (balance fetch + candle fetch,
backend-server.js:313-324), an open, a close, or a whole evaluation
cycle, in any order and with any gateway responses. -/
inductive Reachable : TradingState → Prop
  | init : Reachable initialTradingState
  | refresh (b : ℚ) (klines : List Candle) {s : TradingState} :
      Reachable s → Reachable { s with balance := b, priceData := klines }
  | openStep (cfg : Config) (g : GatewayOracle) (sig : Signal) {s : TradingState} :
      Reachable s → Reachable (openPosition cfg g s sig).1
  | closeStep (cfg : Config) (g : GatewayOracle) (r : ExitReason) (ep : ℚ) {s : TradingState} :
      Reachable s → Reachable (closePosition cfg g s r ep).1
  | cycleStep (cfg : Config) (g : GatewayOracle) (klines : List Candle) {s : TradingState} :
      Reachable s → Reachable (checkForSignals cfg g klines s).1

/-- A flat candle used to build concrete series: price 10, volume 1. -/
def flatC : Candle :=
  ⟨0, 10, 10, 10, 10, 1⟩

/-- The final bar of the concrete LONG scenario: price 11 (up 10% from 10),
volume 100 (far above the trailing mean). -/
def spikeC : Candle :=
  ⟨0, 11, 11, 11, 11, 100⟩

/-- A 100-bar series on which checkEntrySignal fires LONG: 99 flat bars at
price 10, then a volume-spike bar closing at 11. -/
def csLong : List Candle :=
  List.replicate 99 flatC ++ [spikeC]

/-- A candle closing at -12, volume 1. -/
def negC : Candle :=
  ⟨0, -12, -12, -12, -12, 1⟩

/-- A candle closing at 0, volume 1. -/
def zeroC : Candle :=
  ⟨0, 0, 0, 0, 0, 1⟩

/-- A candle closing at 1, volume 1. -/
def oneC : Candle :=
  ⟨0, 1, 1, 1, 1, 1⟩

/-- The final bar of the zero-mean scenario: close 2, volume 100. -/
def twoC : Candle :=
  ⟨0, 2, 2, 2, 2, 100⟩

/-- A 100-bar series whose closes sum to exactly 0 (so ma100 = 0) while the
last bar carries a volume spike and a +100% move: the smart-money signal is
BUY and the trailing stop sits above ma100, yet the source's falsy guard
`!ma100` discards the signal. -/
def csZeroMA : List Candle :=
  negC :: (List.replicate 88 zeroC ++ List.replicate 10 oneC ++ [twoC])

theorem lastN_length_of_le {α : Type} {n : ℕ} {l : List α} (h : n ≤ l.length) :
    (lastN n l).length = n := by
  simp only [lastN, List.length_drop]
  omega

theorem trueRange_nonneg (prev cur : Candle) : 0 ≤ trueRange prev cur :=
  le_trans (abs_nonneg _) (le_trans (le_max_left _ _) (le_max_right _ _))

theorem trueRanges_nonneg : ∀ (l : List Candle), ∀ x ∈ trueRanges l, 0 ≤ x
  | [] => by simp [trueRanges]
  | [_] => by simp [trueRanges]
  | a :: b :: rest => by
      intro x hx
      simp only [trueRanges, List.mem_cons] at hx
      rcases hx with h | h
      · exact h ▸ trueRange_nonneg a b
      · exact trueRanges_nonneg (b :: rest) x h

theorem trueRanges_length : ∀ (l : List Candle), (trueRanges l).length = l.length - 1
  | [] => rfl
  | [_] => rfl
  | a :: b :: rest => by
      simp only [trueRanges, List.length_cons]
      rw [trueRanges_length (b :: rest)]
      simp

theorem calculateSMA_of_lt {data : List Candle} {period : ℕ} (h : data.length < period) :
    calculateSMA data period = none := by
  simp [calculateSMA, h]

theorem calculateSMA_of_le {data : List Candle} {period : ℕ} (h : period ≤ data.length) :
    calculateSMA data period =
      some (((lastN period data).map Candle.close).sum / (period : ℚ)) := by
  simp [calculateSMA, Nat.not_lt.mpr h]

theorem calculateATR_of_lt {data : List Candle} {period : ℕ} (h : data.length < period + 1) :
    calculateATR data period = none := by
  simp [calculateATR, h]

theorem calculateATR_of_le {data : List Candle} {period : ℕ} (h : period + 1 ≤ data.length) :
    calculateATR data period =
      some ((lastN period (trueRanges data)).sum / (period : ℚ)) := by
  simp [calculateATR, Nat.not_lt.mpr h]

theorem sum_lastN_trueRanges_nonneg (data : List Candle) (n : ℕ) :
    0 ≤ (lastN n (trueRanges data)).sum := by
  apply List.sum_nonneg
  intro x hx
  exact trueRanges_nonneg data x (List.drop_subset _ _ hx)

theorem calculateATRTrailingStop_of_le {data : List Candle} {atrPeriod : ℕ} {m : ℚ}
    (h : atrPeriod + 1 ≤ data.length) :
    calculateATRTrailingStop data atrPeriod m =
      some ⟨lastClose data - ((lastN atrPeriod (trueRanges data)).sum / (atrPeriod : ℚ)) * m,
            (lastN atrPeriod (trueRanges data)).sum / (atrPeriod : ℚ)⟩ := by
  simp [calculateATRTrailingStop, Nat.not_lt.mpr h, calculateATR_of_le h]

theorem checkEntrySignal_of_lt {data : List Candle} (h : data.length < 100) :
    checkEntrySignal data = none := by
  simp [checkEntrySignal, h]

theorem checkEntrySignal_spec {data : List Candle} {ma : ℚ} {atrS : ATRStop}
    (hlen : 100 ≤ data.length)
    (hma : calculateSMA data CONFIG.MA_PERIOD = some ma)
    (hatr : calculateATRTrailingStop data CONFIG.ATR_PERIOD CONFIG.ATR_MULTIPLIER = some atrS) :
    checkEntrySignal data =
      if ma = 0 then none
      else if atrS.value > ma ∧ detectSmartMoneySignal data = some Side.BUY then
        some ⟨PosType.LONG, lastClose data, ma,
              lastClose data + (lastClose data - ma) * CONFIG.riskReward, ma, atrS.value⟩
      else if atrS.value < ma ∧ detectSmartMoneySignal data = some Side.SELL then
        some ⟨PosType.SHORT, lastClose data, ma,
              lastClose data - (ma - lastClose data) * CONFIG.riskReward, ma, atrS.value⟩
      else none := by
  unfold checkEntrySignal
  rw [if_neg (Nat.not_lt.mpr hlen), hma, hatr]

/-- Claim C8 (confirmed): calculateSMA returns no result whenever the series
is shorter than `period`, and calculateATR whenever it is shorter than
`period + 1`; when they do return a number it is the mean over a window of
exactly `period` entries, never a shorter one. -/
theorem indicator_lookback_guard (data : List Candle) (period : ℕ) :
    (data.length < period → calculateSMA data period = none) ∧
    (period ≤ data.length →
       calculateSMA data period =
         some (((lastN period data).map Candle.close).sum / (period : ℚ)) ∧
       (lastN period data).length = period) ∧
    (data.length < period + 1 → calculateATR data period = none) ∧
    (period + 1 ≤ data.length →
       calculateATR data period =
         some ((lastN period (trueRanges data)).sum / (period : ℚ)) ∧
       (lastN period (trueRanges data)).length = period) := by
  refine ⟨fun h => calculateSMA_of_lt h,
          fun h => ⟨calculateSMA_of_le h, lastN_length_of_le h⟩,
          fun h => calculateATR_of_lt h,
          fun h => ⟨calculateATR_of_le h, lastN_length_of_le ?_⟩⟩
  rw [trueRanges_length]
  omega

/-- Witness for C8 at concrete inputs: on a 5-bar series, the 100-period SMA
and the 10-period ATR both report insufficient data. -/
theorem indicator_lookback_guard_witness :
    calculateSMA (List.replicate 5 flatC) 100 = none ∧
    calculateATR (List.replicate 5 flatC) 10 = none :=
  ⟨(indicator_lookback_guard (List.replicate 5 flatC) 100).1 (by decide),
   (indicator_lookback_guard (List.replicate 5 flatC) 10).2.2.1 (by decide)⟩

/-- Claim C9 (confirmed): checkEntrySignal returns no signal on any series
of fewer than 100 candles, whatever the candle values. -/
theorem checkEntrySignal_min_bars (data : List Candle) (h : data.length < 100) :
    checkEntrySignal data = none :=
  checkEntrySignal_of_lt h

/-- Witness for C9: a 99-bar series (all of them spike bars) still yields
no entry signal. -/
theorem checkEntrySignal_min_bars_witness :
    checkEntrySignal (List.replicate 99 spikeC) = none :=
  checkEntrySignal_min_bars (List.replicate 99 spikeC) (by decide)

/-- Claim C7 (confirmed): on at least 20 bars, detectSmartMoneySignal is BUY
exactly when the last bar's volume strictly exceeds 1.5 times the mean
volume of the trailing 20 bars, the relative price change strictly exceeds
0.002, and the last close is strictly above the previous close; SELL under
the same volume and momentum conditions with the last close strictly below
the previous close; no signal otherwise, and always no signal under 20
bars. -/
theorem detectSmartMoneySignal_characterization (data : List Candle) :
    (data.length < 20 → detectSmartMoneySignal data = none) ∧
    (20 ≤ data.length →
      (detectSmartMoneySignal data = some Side.BUY ↔
        (data.getD (data.length - 1) default).volume >
            (((lastN 20 data).map Candle.volume).sum / 20) * (3 / 2) ∧
          |(data.getD (data.length - 1) default).close -
              (data.getD (data.length - 2) default).close| /
              (data.getD (data.length - 2) default).close > (1 / 500 : ℚ) ∧
          (data.getD (data.length - 1) default).close >
            (data.getD (data.length - 2) default).close) ∧
      (detectSmartMoneySignal data = some Side.SELL ↔
        (data.getD (data.length - 1) default).volume >
            (((lastN 20 data).map Candle.volume).sum / 20) * (3 / 2) ∧
          |(data.getD (data.length - 1) default).close -
              (data.getD (data.length - 2) default).close| /
              (data.getD (data.length - 2) default).close > (1 / 500 : ℚ) ∧
          (data.getD (data.length - 1) default).close <
            (data.getD (data.length - 2) default).close)) := by
  constructor
  · intro h
    simp [detectSmartMoneySignal, h]
  · intro hlen
    unfold detectSmartMoneySignal
    rw [if_neg (Nat.not_lt.mpr hlen)]
    set cur := data.getD (data.length - 1) default with hcur
    set prev := data.getD (data.length - 2) default with hprev
    set avgVolume := ((lastN 20 data).map Candle.volume).sum / 20 with havg
    constructor
    · constructor
      · intro h
        dsimp only at h
        split_ifs at h with h1 h2
        · exact ⟨h1.1, h1.2.2, h1.2.1⟩
        · exact absurd h (by simp)
      · rintro ⟨h1, h2, h3⟩
        rw [if_pos ⟨h1, h3, h2⟩]
    · constructor
      · intro h
        dsimp only at h
        split_ifs at h with h1 h2
        · exact absurd h (by simp)
        · exact ⟨h2.1, h2.2.2, h2.2.1⟩
      · rintro ⟨h1, h2, h3⟩
        rw [if_neg (by rintro ⟨-, hup, -⟩; exact absurd hup (lt_asymm h3)),
            if_pos ⟨h1, h3, h2⟩]

/-- Witness for C7: the spike series csLong produces a BUY signal, matching
the volume-spike, momentum and direction conditions evaluated concretely. -/
theorem detectSmartMoneySignal_characterization_witness :
    detectSmartMoneySignal csLong = some Side.BUY :=
  ((detectSmartMoneySignal_characterization csLong).2
      (of_decide_eq_true (by with_unfolding_all rfl))).1.mpr
    ⟨of_decide_eq_true (by with_unfolding_all rfl),
     of_decide_eq_true (by with_unfolding_all rfl),
     of_decide_eq_true (by with_unfolding_all rfl)⟩

/-- A degenerate LONG position whose take-profit (5) lies below its
stop-loss (10); at price 7 both exit conditions of the claim hold at once. -/
def posOverlap : Position :=
  ⟨PosType.LONG, 7, 10, 5, 0, 0, 1, 1⟩

/-- Claim C5 counterexample: for the LONG position posOverlap at price 7 we
have price ≥ takeProfit, so the claim asserts a TAKE_PROFIT exit, but the
code's stop-loss test runs first and returns STOP_LOSS instead. -/
theorem checkExit_stopLoss_precedence :
    posOverlap.type = PosType.LONG ∧
    (7 : ℚ) ≥ posOverlap.takeProfit ∧
    checkExit posOverlap 7 = some (ExitReason.STOP_LOSS, 7) ∧
    checkExit posOverlap 7 ≠ some (ExitReason.TAKE_PROFIT, 7) := by
  refine ⟨rfl, ?_, by with_unfolding_all rfl, ?_⟩
  · exact of_decide_eq_true (by with_unfolding_all rfl)
  · intro h
    rw [show checkExit posOverlap 7 = some (ExitReason.STOP_LOSS, 7) from by with_unfolding_all rfl] at h
    simp at h

/-- Claim C5 as amended: checkExit exits with STOP_LOSS exactly when a LONG
sees price ≤ stopLoss or a SHORT sees price ≥ stopLoss; it exits with
TAKE_PROFIT exactly when a LONG sees price ≥ takeProfit with price >
stopLoss, or a SHORT sees price ≤ takeProfit with price < stopLoss (the
stop-loss test has precedence); otherwise no exit; any reported exit price
equals the current price. -/
theorem checkExit_characterization (position : Position) (currentPrice : ℚ) :
    (checkExit position currentPrice = some (ExitReason.STOP_LOSS, currentPrice) ↔
       (position.type = PosType.LONG ∧ currentPrice ≤ position.stopLoss) ∨
       (position.type = PosType.SHORT ∧ currentPrice ≥ position.stopLoss)) ∧
    (checkExit position currentPrice = some (ExitReason.TAKE_PROFIT, currentPrice) ↔
       (position.type = PosType.LONG ∧ position.stopLoss < currentPrice ∧
          currentPrice ≥ position.takeProfit) ∨
       (position.type = PosType.SHORT ∧ currentPrice < position.stopLoss ∧
          currentPrice ≤ position.takeProfit)) ∧
    (checkExit position currentPrice = none ↔
       (position.type = PosType.LONG ∧ position.stopLoss < currentPrice ∧
          currentPrice < position.takeProfit) ∨
       (position.type = PosType.SHORT ∧ position.takeProfit < currentPrice ∧
          currentPrice < position.stopLoss)) ∧
    (∀ r p, checkExit position currentPrice = some (r, p) → p = currentPrice) := by
  unfold checkExit
  rcases hpt : position.type with _ | _
  · rw [if_pos rfl]
    by_cases hsl : currentPrice ≤ position.stopLoss
    · rw [if_pos hsl]
      refine ⟨by simp [hpt, hsl], ?_, ?_, ?_⟩
      · simp only [hpt]
        constructor
        · intro h
          simp at h
        · rintro (⟨-, hgt, -⟩ | ⟨hshort, -⟩)
          · exact absurd hsl (not_le.mpr hgt)
          · exact absurd hshort (by simp)
      · simp only [hpt]
        constructor
        · intro h
          simp at h
        · rintro (⟨-, hgt, -⟩ | ⟨hshort, -⟩)
          · exact absurd hsl (not_le.mpr hgt)
          · exact absurd hshort (by simp)
      · rintro r p h
        simp only [Option.some.injEq, Prod.mk.injEq] at h
        exact h.2.symm
    · rw [if_neg hsl]
      by_cases htp : currentPrice ≥ position.takeProfit
      · rw [if_pos htp]
        refine ⟨?_, ?_, ?_, ?_⟩
        · simp only [hpt]
          constructor
          · intro h
            simp at h
          · rintro (⟨-, hle⟩ | ⟨hshort, -⟩)
            · exact absurd hle hsl
            · exact absurd hshort (by simp)
        · simp [hpt, not_le.mp hsl, htp]
        · simp only [hpt]
          constructor
          · intro h
            simp at h
          · rintro (⟨-, -, hlt⟩ | ⟨hshort, -⟩)
            · exact absurd htp (not_le.mpr hlt)
            · exact absurd hshort (by simp)
        · rintro r p h
          simp only [Option.some.injEq, Prod.mk.injEq] at h
          exact h.2.symm
      · rw [if_neg htp]
        refine ⟨?_, ?_, ?_, ?_⟩
        · simp only [hpt]
          constructor
          · intro h
            simp at h
          · rintro (⟨-, hle⟩ | ⟨hshort, -⟩)
            · exact absurd hle hsl
            · exact absurd hshort (by simp)
        · simp only [hpt]
          constructor
          · intro h
            simp at h
          · rintro (⟨-, -, hge⟩ | ⟨hshort, -⟩)
            · exact absurd hge htp
            · exact absurd hshort (by simp)
        · simp [hpt, not_le.mp hsl, not_le.mp htp]
        · rintro r p h
          simp at h
  · rw [if_neg (by simp [hpt])]
    by_cases hsl : currentPrice ≥ position.stopLoss
    · rw [if_pos hsl]
      refine ⟨by simp [hpt, hsl], ?_, ?_, ?_⟩
      · simp only [hpt]
        constructor
        · intro h
          simp at h
        · rintro (⟨hlong, -⟩ | ⟨-, hlt, -⟩)
          · exact absurd hlong (by simp)
          · exact absurd hsl (not_le.mpr hlt)
      · simp only [hpt]
        constructor
        · intro h
          simp at h
        · rintro (⟨hlong, -⟩ | ⟨-, -, hlt⟩)
          · exact absurd hlong (by simp)
          · exact absurd hsl (not_le.mpr hlt)
      · rintro r p h
        simp only [Option.some.injEq, Prod.mk.injEq] at h
        exact h.2.symm
    · rw [if_neg hsl]
      by_cases htp : currentPrice ≤ position.takeProfit
      · rw [if_pos htp]
        refine ⟨?_, ?_, ?_, ?_⟩
        · simp only [hpt]
          constructor
          · intro h
            simp at h
          · rintro (⟨hlong, -⟩ | ⟨-, hge⟩)
            · exact absurd hlong (by simp)
            · exact absurd hge hsl
        · simp [hpt, not_le.mp hsl, htp]
        · simp only [hpt]
          constructor
          · intro h
            simp at h
          · rintro (⟨hlong, -⟩ | ⟨-, hgt, -⟩)
            · exact absurd hlong (by simp)
            · exact absurd htp (not_le.mpr hgt)
        · rintro r p h
          simp only [Option.some.injEq, Prod.mk.injEq] at h
          exact h.2.symm
      · rw [if_neg htp]
        refine ⟨?_, ?_, ?_, ?_⟩
        · simp only [hpt]
          constructor
          · intro h
            simp at h
          · rintro (⟨hlong, -⟩ | ⟨-, hge⟩)
            · exact absurd hlong (by simp)
            · exact absurd hge hsl
        · simp only [hpt]
          constructor
          · intro h
            simp at h
          · rintro (⟨hlong, -⟩ | ⟨-, -, hle⟩)
            · exact absurd hlong (by simp)
            · exact absurd hle htp
        · simp [hpt, not_le.mp hsl, not_le.mp htp]
        · rintro r p h
          simp at h

/-- Witness for C5: a LONG position with stop 2 and target 4, marked at
price 199/100 (below the stop), exits with STOP_LOSS at that price. -/
theorem checkExit_characterization_witness :
    checkExit ⟨PosType.LONG, 3, 2, 4, 0, 0, 1, 1⟩ (199 / 100) =
      some (ExitReason.STOP_LOSS, 199 / 100) :=
  (checkExit_characterization ⟨PosType.LONG, 3, 2, 4, 0, 0, 1, 1⟩ (199 / 100)).1.mpr
    (Or.inl ⟨rfl, of_decide_eq_true (by with_unfolding_all rfl)⟩)

/-- Claim C1 counterexample: on the 100-bar series csZeroMA the 100-period
moving average is exactly 0, the trailing-stop value 17/10 is strictly
above it and the smart-money signal is BUY, so the claim demands a LONG
signal; but the source's falsy guard `!ma100` treats the 0 average as null
and checkEntrySignal returns no signal. -/
theorem checkEntrySignal_ignores_zero_ma100 :
    calculateSMA csZeroMA 100 = some 0 ∧
    calculateATRTrailingStop csZeroMA 10 3 = some ⟨17 / 10, 1 / 10⟩ ∧
    detectSmartMoneySignal csZeroMA = some Side.BUY ∧
    ((17 / 10 : ℚ) > 0) ∧
    checkEntrySignal csZeroMA = none := by
  refine ⟨by with_unfolding_all rfl, by with_unfolding_all rfl, by with_unfolding_all rfl,
          of_decide_eq_true (by with_unfolding_all rfl), by with_unfolding_all rfl⟩

/-- Claim C1 as amended: for a series of at least 100 bars with 100-period
moving average `ma` and ATR(10)-trailing stop `atrS`, checkEntrySignal
returns the LONG signal (entry = last close, stopLoss = ma, takeProfit =
entry + (entry - ma) * riskRewardRatio) exactly when `ma ≠ 0` (the code's
falsy null-check also rejects a zero average), the trailing-stop value is
strictly above `ma` and the smart-money signal is BUY; the mirrored SHORT
signal exactly when `ma ≠ 0`, the value is strictly below `ma` and the
signal is SELL; no signal otherwise; and the LONG and SHORT trigger
conditions can never hold together. -/
theorem checkEntrySignal_characterization (data : List Candle) (ma : ℚ) (atrS : ATRStop)
    (hlen : 100 ≤ data.length)
    (hma : calculateSMA data CONFIG.MA_PERIOD = some ma)
    (hatr : calculateATRTrailingStop data CONFIG.ATR_PERIOD CONFIG.ATR_MULTIPLIER = some atrS) :
    (checkEntrySignal data =
        some ⟨PosType.LONG, lastClose data, ma,
              lastClose data + (lastClose data - ma) * CONFIG.riskReward, ma, atrS.value⟩ ↔
      ma ≠ 0 ∧ atrS.value > ma ∧ detectSmartMoneySignal data = some Side.BUY) ∧
    (checkEntrySignal data =
        some ⟨PosType.SHORT, lastClose data, ma,
              lastClose data - (ma - lastClose data) * CONFIG.riskReward, ma, atrS.value⟩ ↔
      ma ≠ 0 ∧ atrS.value < ma ∧ detectSmartMoneySignal data = some Side.SELL) ∧
    (checkEntrySignal data = none ↔
      ¬(ma ≠ 0 ∧ atrS.value > ma ∧ detectSmartMoneySignal data = some Side.BUY) ∧
      ¬(ma ≠ 0 ∧ atrS.value < ma ∧ detectSmartMoneySignal data = some Side.SELL)) ∧
    ¬((atrS.value > ma ∧ detectSmartMoneySignal data = some Side.BUY) ∧
      (atrS.value < ma ∧ detectSmartMoneySignal data = some Side.SELL)) := by
  have hkey := checkEntrySignal_spec hlen hma hatr
  have hnoboth : ¬((atrS.value > ma ∧ detectSmartMoneySignal data = some Side.BUY) ∧
      (atrS.value < ma ∧ detectSmartMoneySignal data = some Side.SELL)) := by
    rintro ⟨⟨hgt, -⟩, ⟨hlt, -⟩⟩
    exact absurd hgt (lt_asymm hlt)
  by_cases h0 : ma = 0
  · rw [if_pos h0] at hkey
    refine ⟨?_, ?_, ?_, hnoboth⟩
    · rw [hkey]
      simp [h0]
    · rw [hkey]
      simp [h0]
    · rw [hkey]
      simp [h0]
  · rw [if_neg h0] at hkey
    by_cases hbuy : atrS.value > ma ∧ detectSmartMoneySignal data = some Side.BUY
    · rw [if_pos hbuy] at hkey
      refine ⟨?_, ?_, ?_, hnoboth⟩
      · rw [hkey]
        simp [h0, hbuy]
      · rw [hkey]
        constructor
        · intro h
          simp only [Option.some.injEq, Signal.mk.injEq] at h
          exact absurd h.1 (by simp)
        · rintro ⟨-, hlt, -⟩
          exact absurd hbuy.1 (lt_asymm hlt)
      · rw [hkey]
        simp [h0, hbuy]
    · rw [if_neg hbuy] at hkey
      by_cases hsell : atrS.value < ma ∧ detectSmartMoneySignal data = some Side.SELL
      · rw [if_pos hsell] at hkey
        refine ⟨?_, ?_, ?_, hnoboth⟩
        · rw [hkey]
          constructor
          · intro h
            simp only [Option.some.injEq, Signal.mk.injEq] at h
            exact absurd h.1 (by simp)
          · rintro ⟨-, hgt, -⟩
            exact absurd hgt (lt_asymm hsell.1)
        · rw [hkey]
          simp [h0, hsell]
        · rw [hkey]
          simp [h0, hsell]
      · rw [if_neg hsell] at hkey
        refine ⟨?_, ?_, ?_, hnoboth⟩
        · rw [hkey]
          constructor
          · intro h
            simp at h
          · intro h
            exact absurd ⟨h.2.1, h.2.2⟩ hbuy
        · rw [hkey]
          constructor
          · intro h
            simp at h
          · intro h
            exact absurd ⟨h.2.1, h.2.2⟩ hsell
        · rw [hkey]
          simp only [true_iff]
          constructor
          · rintro ⟨-, hc⟩
            exact hbuy hc
          · rintro ⟨-, hc⟩
            exact hsell hc

/-- Witness for C1: on the spike series csLong (ma100 = 1001/100, trailing
stop 107/10, smart-money BUY) the characterization yields the concrete LONG
signal. -/
theorem checkEntrySignal_characterization_witness :
    checkEntrySignal csLong =
      some ⟨PosType.LONG, lastClose csLong, 1001 / 100,
            lastClose csLong + (lastClose csLong - 1001 / 100) * CONFIG.riskReward,
            1001 / 100, (⟨107 / 10, 1 / 10⟩ : ATRStop).value⟩ :=
  (checkEntrySignal_characterization csLong (1001 / 100) ⟨107 / 10, 1 / 10⟩
      (of_decide_eq_true (by with_unfolding_all rfl))
      (by with_unfolding_all rfl)
      (by with_unfolding_all rfl)).1.mpr
    ⟨of_decide_eq_true (by with_unfolding_all rfl),
     of_decide_eq_true (by with_unfolding_all rfl),
     by with_unfolding_all rfl⟩

theorem calculateATR_nonneg {data : List Candle} {period : ℕ} {a : ℚ}
    (h : calculateATR data period = some a) : 0 ≤ a := by
  unfold calculateATR at h
  split at h
  · simp at h
  · simp only [Option.some.injEq] at h
    rw [← h]
    exact div_nonneg (sum_lastN_trueRanges_nonneg data period) (Nat.cast_nonneg period)

theorem atrStop_value_le {data : List Candle} {atrPeriod : ℕ} {m : ℚ} {atrS : ATRStop}
    (hm : 0 ≤ m) (h : calculateATRTrailingStop data atrPeriod m = some atrS) :
    atrS.value ≤ lastClose data := by
  unfold calculateATRTrailingStop at h
  split at h
  · simp at h
  · cases hATR : calculateATR data atrPeriod with
    | none =>
        rw [hATR] at h
        simp at h
    | some a =>
        rw [hATR] at h
        simp only [Option.some.injEq] at h
        have ha : 0 ≤ a := calculateATR_nonneg hATR
        rw [← h]
        have : 0 ≤ a * m := mul_nonneg ha hm
        simp only
        linarith

/-- Claim C10 (confirmed): whenever checkEntrySignal returns a LONG signal
(riskRewardRatio is the configured 1), the bracket is sound: stopLoss <
entryPrice < takeProfit — because every true range is non-negative, so the
ATR is non-negative, the trailing-stop value is at most the last close, and
the LONG filter atrStop.value > ma100 forces ma100 < entryPrice — and
consequently checkExit on the freshly opened position at its own entry
price reports no exit. -/
theorem long_signal_bracket_sound (data : List Candle) (sig : Signal)
    (h : checkEntrySignal data = some sig) (ht : sig.type = PosType.LONG) :
    sig.stopLoss < sig.entryPrice ∧ sig.entryPrice < sig.takeProfit ∧
    sig.ma100 < sig.entryPrice ∧ sig.atrStop ≤ sig.entryPrice ∧
    ∀ (q : ℚ) (oid : ℕ),
      checkExit ⟨sig.type, sig.entryPrice, sig.stopLoss, sig.takeProfit,
                 sig.ma100, sig.atrStop, q, oid⟩ sig.entryPrice = none := by
  have hlen : 100 ≤ data.length := by
    by_contra hc
    rw [checkEntrySignal_of_lt (Nat.lt_of_not_le hc)] at h
    exact absurd h (by simp)
  have hle1 : CONFIG.MA_PERIOD ≤ data.length := by
    rw [show CONFIG.MA_PERIOD = 100 from rfl]
    exact hlen
  have hle2 : CONFIG.ATR_PERIOD + 1 ≤ data.length := by
    rw [show CONFIG.ATR_PERIOD = 10 from rfl]
    omega
  have hma := calculateSMA_of_le hle1
  have hatr := calculateATRTrailingStop_of_le (m := CONFIG.ATR_MULTIPLIER) hle2
  have hvle : (⟨lastClose data -
        ((lastN CONFIG.ATR_PERIOD (trueRanges data)).sum / (CONFIG.ATR_PERIOD : ℚ)) *
          CONFIG.ATR_MULTIPLIER,
      (lastN CONFIG.ATR_PERIOD (trueRanges data)).sum / (CONFIG.ATR_PERIOD : ℚ)⟩ :
        ATRStop).value ≤ lastClose data :=
    atrStop_value_le (by rw [show CONFIG.ATR_MULTIPLIER = 3 from rfl]; norm_num) hatr
  have hkey := checkEntrySignal_spec hlen hma hatr
  rw [hkey] at h
  split_ifs at h with h0 hbuy hsell
  · -- LONG branch
    have hsig := (Option.some.injEq _ _).mp h
    have hgt := hbuy.1
    rw [← hsig]
    simp only at hgt hvle ⊢
    rw [show CONFIG.riskReward = 1 from rfl]
    have hmalt : ((lastN CONFIG.MA_PERIOD data).map Candle.close).sum / (CONFIG.MA_PERIOD : ℚ) <
        lastClose data := lt_of_lt_of_le hgt hvle
    refine ⟨hmalt, by linarith, hmalt, hvle, ?_⟩
    · intro q oid
      unfold checkExit
      rw [if_pos rfl]
      simp only
      rw [if_neg (not_le.mpr hmalt), if_neg (not_le.mpr (by linarith))]
  · -- SHORT branch: contradicts ht
    have hsig := (Option.some.injEq _ _).mp h
    rw [← hsig] at ht
    exact absurd ht (by simp)

/-- Witness for C10: on csLong the LONG signal is (entry 11, stop 1001/100,
target 1199/100); the bracket is sound and checkExit at the entry price
(with the cycle's quantity 909/10) reports no exit. -/
theorem long_signal_bracket_sound_witness :
    (1001 / 100 : ℚ) < 11 ∧ (11 : ℚ) < 1199 / 100 ∧
    checkExit ⟨PosType.LONG, 11, 1001 / 100, 1199 / 100, 1001 / 100, 107 / 10, 909 / 10, 1⟩ 11 =
      none :=
  have H := long_signal_bracket_sound csLong
    ⟨PosType.LONG, 11, 1001 / 100, 1199 / 100, 1001 / 100, 107 / 10⟩
    (by with_unfolding_all rfl) rfl
  ⟨H.1, H.2.1, H.2.2.2.2 (909 / 10) 1⟩

theorem updatePriceData_fields (klines : List Candle) (s : TradingState) :
    (updatePriceData klines s).balance = s.balance ∧
    (updatePriceData klines s).inPosition = s.inPosition ∧
    (updatePriceData klines s).currentPosition = s.currentPosition ∧
    (updatePriceData klines s).trades = s.trades := by
  unfold updatePriceData
  split <;> simp

theorem openPosition_trades_eq (cfg : Config) (g : GatewayOracle) (s : TradingState)
    (sig : Signal) : (openPosition cfg g s sig).1.trades = s.trades := by
  unfold openPosition
  dsimp only
  split
  · rfl
  · cases g.marketOrder <;> rfl

theorem closePosition_trades_cases (cfg : Config) (g : GatewayOracle) (s : TradingState)
    (r : ExitReason) (ep : ℚ) :
    (closePosition cfg g s r ep).1.trades = s.trades ∨
    ∃ t, (closePosition cfg g s r ep).1.trades = s.trades ++ [t] := by
  unfold closePosition
  cases hp : s.currentPosition with
  | none => exact Or.inl rfl
  | some p =>
      cases ho : g.closeOrder with
      | none => exact Or.inl rfl
      | some oid => exact Or.inr ⟨_, rfl⟩

theorem checkForSignals_cases (cfg : Config) (g : GatewayOracle) (klines : List Candle)
    (s : TradingState) :
    (checkForSignals cfg g klines s).1 = updatePriceData klines s ∨
    (∃ reason price, (checkForSignals cfg g klines s).1 =
        (closePosition cfg g (updatePriceData klines s) reason price).1) ∨
    (∃ sig, (checkForSignals cfg g klines s).1 =
        (openPosition cfg g (updatePriceData klines s) sig).1) := by
  unfold checkForSignals
  dsimp only
  split
  · exact Or.inl rfl
  · split
    · exact Or.inl rfl
    · split
      · split
        · exact Or.inr (Or.inl ⟨_, _, rfl⟩)
        · exact Or.inl rfl
      · split
        · exact Or.inr (Or.inr ⟨_, rfl⟩)
        · exact Or.inl rfl

theorem checkForSignals_trades_cases (cfg : Config) (g : GatewayOracle) (klines : List Candle)
    (s : TradingState) :
    (checkForSignals cfg g klines s).1.trades = s.trades ∨
    ∃ t, (checkForSignals cfg g klines s).1.trades = s.trades ++ [t] := by
  have hupd := (updatePriceData_fields klines s).2.2.2
  rcases checkForSignals_cases cfg g klines s with h | ⟨r, p, h⟩ | ⟨sig, h⟩
  · rw [h]
    exact Or.inl hupd
  · rw [h]
    rcases closePosition_trades_cases cfg g (updatePriceData klines s) r p with h2 | ⟨t, h2⟩
    · rw [h2]
      exact Or.inl hupd
    · rw [h2, hupd]
      exact Or.inr ⟨t, rfl⟩
  · rw [h, openPosition_trades_eq]
    exact Or.inl hupd

theorem openPosition_state_of_fail (cfg : Config) (g : GatewayOracle) (s : TradingState)
    (sig : Signal) (hm : g.marketOrder = none) : (openPosition cfg g s sig).1 = s := by
  unfold openPosition
  dsimp only
  split
  · rfl
  · rw [hm]

theorem closePosition_state_of_fail (cfg : Config) (g : GatewayOracle) (s : TradingState)
    (r : ExitReason) (ep : ℚ) (hc : g.closeOrder = none) :
    (closePosition cfg g s r ep).1 = s := by
  unfold closePosition
  rw [hc]
  cases s.currentPosition <;> rfl

theorem openPosition_invariant (cfg : Config) (g : GatewayOracle) (s : TradingState)
    (sig : Signal) (h : s.inPosition = true ↔ s.currentPosition ≠ none) :
    (openPosition cfg g s sig).1.inPosition = true ↔
      (openPosition cfg g s sig).1.currentPosition ≠ none := by
  unfold openPosition
  dsimp only
  split
  · exact h
  · cases g.marketOrder with
    | none => exact h
    | some oid => simp

theorem closePosition_invariant (cfg : Config) (g : GatewayOracle) (s : TradingState)
    (r : ExitReason) (ep : ℚ) (h : s.inPosition = true ↔ s.currentPosition ≠ none) :
    (closePosition cfg g s r ep).1.inPosition = true ↔
      (closePosition cfg g s r ep).1.currentPosition ≠ none := by
  unfold closePosition
  cases s.currentPosition with
  | none => exact h
  | some p =>
      cases g.closeOrder with
      | none => exact h
      | some oid => simp

theorem updatePriceData_invariant (klines : List Candle) (s : TradingState)
    (h : s.inPosition = true ↔ s.currentPosition ≠ none) :
    (updatePriceData klines s).inPosition = true ↔
      (updatePriceData klines s).currentPosition ≠ none := by
  rw [(updatePriceData_fields klines s).2.1, (updatePriceData_fields klines s).2.2.1]
  exact h

theorem checkForSignals_invariant (cfg : Config) (g : GatewayOracle) (klines : List Candle)
    (s : TradingState) (h : s.inPosition = true ↔ s.currentPosition ≠ none) :
    (checkForSignals cfg g klines s).1.inPosition = true ↔
      (checkForSignals cfg g klines s).1.currentPosition ≠ none := by
  have hupd := updatePriceData_invariant klines s h
  rcases checkForSignals_cases cfg g klines s with hc | ⟨r, p, hc⟩ | ⟨sig, hc⟩
  · rw [hc]
    exact hupd
  · rw [hc]
    exact closePosition_invariant cfg g (updatePriceData klines s) r p hupd
  · rw [hc]
    exact openPosition_invariant cfg g (updatePriceData klines s) sig hupd

/-- Claim C3 (confirmed): in the initial state and after any sequence of
refreshes, open transitions, close transitions and whole evaluation cycles,
`inPosition` is true exactly when `currentPosition` is non-null: the
controller is always either FLAT with no position or IN_POSITION with one. -/
theorem reachable_inPosition_iff (s : TradingState) (h : Reachable s) :
    s.inPosition = true ↔ s.currentPosition ≠ none := by
  induction h with
  | init => simp [initialTradingState]
  | refresh b klines _ ih => exact ih
  | openStep cfg g sig _ ih => exact openPosition_invariant _ _ _ _ ih
  | closeStep cfg g r ep _ ih => exact closePosition_invariant _ _ _ _ _ ih
  | cycleStep cfg g klines _ ih => exact checkForSignals_invariant _ _ _ _ ih

/-- Witness for C3 at the initial state: FLAT with a null position. -/
theorem reachable_inPosition_iff_witness :
    initialTradingState.inPosition = true ↔ initialTradingState.currentPosition ≠ none :=
  reachable_inPosition_iff initialTradingState Reachable.init

/-- Claim C2 (confirmed): a close that finds a position record and whose
venue close order succeeds appends exactly one Trade carrying the
direction-dependent profit `(exitPrice - entryPrice) * quantity` (mirrored
for SHORT) scaled by the configured leverage and the exit reason, adds that
profit to the balance, clears currentPosition and resets inPosition; and no
operation — openPosition, closePosition or a whole cycle — ever removes or
rewrites trade-history entries: each leaves the history unchanged or
appends exactly one record. -/
theorem closePosition_profit_and_history (cfg : Config) (g : GatewayOracle) (s : TradingState)
    (reason : ExitReason) (exitPrice : ℚ) (p : Position) (oid : ℕ)
    (_hin : s.inPosition = true) (hp : s.currentPosition = some p)
    (ho : g.closeOrder = some oid) :
    (closePosition cfg g s reason exitPrice).1 =
      { s with
          trades := s.trades ++
            [⟨p.type, p.entryPrice, exitPrice, p.quantity,
              (if p.type = PosType.LONG then (exitPrice - p.entryPrice) * p.quantity
               else (p.entryPrice - exitPrice) * p.quantity) * cfg.LEVERAGE, reason⟩],
          balance := s.balance +
            (if p.type = PosType.LONG then (exitPrice - p.entryPrice) * p.quantity
             else (p.entryPrice - exitPrice) * p.quantity) * cfg.LEVERAGE,
          inPosition := false,
          currentPosition := none } ∧
    (∀ (cfg2 : Config) (g2 : GatewayOracle) (s2 : TradingState) (sig2 : Signal),
        (openPosition cfg2 g2 s2 sig2).1.trades = s2.trades) ∧
    (∀ (cfg2 : Config) (g2 : GatewayOracle) (s2 : TradingState) (r2 : ExitReason) (e2 : ℚ),
        (closePosition cfg2 g2 s2 r2 e2).1.trades = s2.trades ∨
        ∃ t, (closePosition cfg2 g2 s2 r2 e2).1.trades = s2.trades ++ [t]) ∧
    (∀ (cfg2 : Config) (g2 : GatewayOracle) (kl2 : List Candle) (s2 : TradingState),
        (checkForSignals cfg2 g2 kl2 s2).1.trades = s2.trades ∨
        ∃ t, (checkForSignals cfg2 g2 kl2 s2).1.trades = s2.trades ++ [t]) := by
  refine ⟨?_, openPosition_trades_eq, closePosition_trades_cases, checkForSignals_trades_cases⟩
  unfold closePosition
  rw [hp, ho]

/-- A LONG position: entry 21/10, stop 2, target 4, quantity 3. -/
def posScenario : Position :=
  ⟨PosType.LONG, 21 / 10, 2, 4, 2, 2, 3, 7⟩

/-- An IN_POSITION state holding posScenario with balance 100. -/
def sScenario : TradingState :=
  ⟨100, true, some posScenario, [], []⟩

/-- A gateway whose close request succeeds (order id 5) while the order
calls are untouched. -/
def gScenario : GatewayOracle :=
  ⟨0, none, none, some 5⟩

/-- Witness for C2: closing the LONG (entry 21/10, quantity 3) at 199/100
under leverage 10 books profit (199/100 - 21/10) * 3 * 10, appends the one
STOP_LOSS trade, credits the balance and returns the controller to FLAT. -/
theorem closePosition_profit_and_history_witness :
    (closePosition CONFIG gScenario sScenario ExitReason.STOP_LOSS (199 / 100)).1 =
      { sScenario with
          trades := sScenario.trades ++
            [⟨posScenario.type, posScenario.entryPrice, 199 / 100, posScenario.quantity,
              (if posScenario.type = PosType.LONG
               then ((199 : ℚ) / 100 - posScenario.entryPrice) * posScenario.quantity
               else (posScenario.entryPrice - 199 / 100) * posScenario.quantity) * CONFIG.LEVERAGE,
              ExitReason.STOP_LOSS⟩],
          balance := sScenario.balance +
            (if posScenario.type = PosType.LONG
             then ((199 : ℚ) / 100 - posScenario.entryPrice) * posScenario.quantity
             else (posScenario.entryPrice - 199 / 100) * posScenario.quantity) * CONFIG.LEVERAGE,
          inPosition := false,
          currentPosition := none } :=
  (closePosition_profit_and_history CONFIG gScenario sScenario ExitReason.STOP_LOSS (199 / 100)
    posScenario 5 rfl rfl rfl).1

theorem checkForSignals_state_of_fail (cfg : Config) (g : GatewayOracle) (klines : List Candle)
    (s : TradingState) (hm : g.marketOrder = none) (hc : g.closeOrder = none) :
    (checkForSignals cfg g klines s).1 = updatePriceData klines s := by
  rcases checkForSignals_cases cfg g klines s with h | ⟨r, p, h⟩ | ⟨sig, h⟩
  · exact h
  · rw [h, closePosition_state_of_fail cfg g (updatePriceData klines s) r p hc]
  · rw [h, openPosition_state_of_fail cfg g (updatePriceData klines s) sig hm]

/-- Claim C4 as amended: a failure of the balance fetch, the market-order
call or the close request degrades the cycle to a no-op on balance,
inPosition, currentPosition and the trade history; but a stop-order
failure that happens after a successful market order does not undo the
transition — the opened position stays (see the counterexample). -/
theorem gateway_failure_noop (cfg : Config) (g : GatewayOracle) (klines : List Candle)
    (s : TradingState) (hm : g.marketOrder = none) (hc : g.closeOrder = none) :
    (checkForSignals cfg g klines s).1.balance = s.balance ∧
    (checkForSignals cfg g klines s).1.inPosition = s.inPosition ∧
    (checkForSignals cfg g klines s).1.currentPosition = s.currentPosition ∧
    (checkForSignals cfg g klines s).1.trades = s.trades := by
  rw [checkForSignals_state_of_fail cfg g klines s hm hc]
  exact updatePriceData_fields klines s

/-- Witness for C4 (amended): with every order call failing, a cycle over
csLong from the initial state leaves all four fields unchanged. -/
theorem gateway_failure_noop_witness :
    (checkForSignals CONFIG ⟨0, none, none, none⟩ csLong initialTradingState).1.balance =
        initialTradingState.balance ∧
    (checkForSignals CONFIG ⟨0, none, none, none⟩ csLong initialTradingState).1.inPosition =
        initialTradingState.inPosition ∧
    (checkForSignals CONFIG ⟨0, none, none, none⟩ csLong initialTradingState).1.currentPosition =
        initialTradingState.currentPosition ∧
    (checkForSignals CONFIG ⟨0, none, none, none⟩ csLong initialTradingState).1.trades =
        initialTradingState.trades :=
  gateway_failure_noop CONFIG ⟨0, none, none, none⟩ csLong initialTradingState rfl rfl

/-- Claim C4 counterexample: in a cycle over csLong where the market order
succeeds but the protective stop order fails (returns null), the cycle
still attempts the stop order and ends IN_POSITION: the failed gateway
call did not degrade the cycle to a no-op. -/
theorem stopOrder_failure_not_noop :
    (⟨100, some 1, none, some 1⟩ : GatewayOracle).stopOrder = none ∧
    OrderAction.stopOrder Side.SELL (909 / 10) (1001 / 100) ∈
      (checkForSignals CONFIG ⟨100, some 1, none, some 1⟩ csLong initialTradingState).2 ∧
    (checkForSignals CONFIG ⟨100, some 1, none, some 1⟩ csLong initialTradingState).1.inPosition =
      true ∧
    initialTradingState.inPosition = false := by
  refine ⟨rfl, ?_, by with_unfolding_all rfl, rfl⟩
  have hact : (checkForSignals CONFIG ⟨100, some 1, none, some 1⟩ csLong initialTradingState).2 =
      [OrderAction.marketOrder Side.BUY (909 / 10),
       OrderAction.stopOrder Side.SELL (909 / 10) (1001 / 100)] := by
    with_unfolding_all rfl
  rw [hact]
  simp

/-- Claim C6 (confirmed): the order quantity is
floor(balance * positionSizePct/100 * leverage / entryPrice * 10) / 10,
and a non-positive quantity aborts the entry before any order: the state
is returned unchanged and no market or stop order is submitted. -/
theorem openPosition_quantity_floor (cfg : Config) (g : GatewayOracle) (s : TradingState)
    (signal : Signal) :
    orderQuantity cfg g.balance signal.entryPrice =
      ((Rat.floor (g.balance * (cfg.POSITION_SIZE / 100) * cfg.LEVERAGE /
          signal.entryPrice * 10) : ℚ) / 10) ∧
    (orderQuantity cfg g.balance signal.entryPrice ≤ 0 →
      openPosition cfg g s signal = (s, [])) := by
  constructor
  · unfold orderQuantity
    rw [show g.balance * cfg.POSITION_SIZE / 100 * cfg.LEVERAGE / signal.entryPrice * 10 =
          g.balance * (cfg.POSITION_SIZE / 100) * cfg.LEVERAGE / signal.entryPrice * 10 from
        by ring]
  · intro h
    unfold openPosition
    dsimp only
    rw [if_pos h]

/-- Witness for C6, the spec's quantity-floor scenario: balance 100,
positionSizePct 100, leverage 10, entryPrice 1000000 give quantity 0 and
the entry aborts with no state change and no orders. -/
theorem openPosition_quantity_floor_witness :
    orderQuantity CONFIG (100 : ℚ) (1000000 : ℚ) = 0 ∧
    openPosition CONFIG ⟨100, some 1, some 1, some 1⟩ initialTradingState
        ⟨PosType.LONG, 1000000, 999000, 1001000, 0, 0⟩ =
      (initialTradingState, []) :=
  ⟨by with_unfolding_all rfl,
   (openPosition_quantity_floor CONFIG ⟨100, some 1, some 1, some 1⟩ initialTradingState
      ⟨PosType.LONG, 1000000, 999000, 1001000, 0, 0⟩).2
     (of_decide_eq_true (by with_unfolding_all rfl))⟩
